import Mathlib

/-!
Verification of the sglang-mistral client against its specification.

The Python sources are shallowly embedded:
* `message.py` : `create_message`, `determine_default_text`;
* `client.py`  : `SGLangMistralClient.__init__` (field resolution),
  `make_request`, `make_request_raw`, `health_check`, with the HTTP layer
  modelled as an oracle `String → List (String × BVal) → Except TransportError HttpResponse`;
* `cli.py`     : `determine_text_and_images`.

Python `None`-able parameters become `Option`; Python truthiness of the
arguments (`x or y`, `if image_urls:`) is embedded explicitly.
-/

set_option autoImplicit false

namespace SGLangMistral

/-- One content block of a message: the tagged union
`\x7btype: "image_url", image_url: \x7burl: string\x7d\x7d` or
`\x7btype: "text", text: string\x7d`. -/
inductive ContentBlock where
  | imageUrl (url : String)
  | textBlock (t : String)
  deriving DecidableEq, Repr

/-- Message content: either a bare string (text-only shape) or an ordered
list of content blocks. -/
inductive Content where
  | str (s : String)
  | blocks (bs : List ContentBlock)
  deriving DecidableEq, Repr

/-- A chat message `\x7brole, content\x7d`. -/
structure Message where
  role : String
  content : Content
  deriving DecidableEq, Repr

/-- Python truthiness of an `Optional[List[str]]` argument:
`None` and `[]` are falsy, a non-empty list is truthy. -/
def listTruthy (o : Option (List String)) : Bool :=
  match o with
  | none => false
  | some l => !l.isEmpty

/-- Embedding of `message.create_message(text, image_urls)`:
builds `content` (image blocks first, then the single text block) and
returns the bare-string shape when `image_urls` is falsy, the block-list
shape otherwise. -/
def create_message (text : String) (image_urls : Option (List String)) :
    List Message :=
  let content : List ContentBlock :=
    (if listTruthy image_urls then
      (image_urls.getD []).map (fun url => ContentBlock.imageUrl url)
    else []) ++ [ContentBlock.textBlock text]
  if !listTruthy image_urls then
    [{ role := "user", content := Content.str text }]
  else
    [{ role := "user", content := Content.blocks content }]

/-- Embedding of `message.determine_default_text(image_count)`; the Python
`int` argument is an unbounded `Int`, and the f-string
`f"I have \x7bimage_count\x7d images. Please describe each image."` is the
explicit concatenation. -/
def determine_default_text (image_count : Int) : String :=
  if image_count = 0 then
    "What's in this image?"
  else if image_count = 1 then
    "What's in this image?"
  else
    "I have " ++ toString image_count ++ " images. Please describe each image."

/-- The process environment as read by `client.py`: the two variables the
constructor consults, plus `SGLANG_MODEL`, which test fixtures set but the
constructor never reads. `none` means the variable is unset. -/
structure Env where
  sglang_host : Option String
  sglang_port : Option String
  sglang_model : Option String
  deriving DecidableEq, Repr

/-- Embedding of `os.getenv(var, default)`: the variable's value when set (even when set
to the empty string), else the default. -/
def getenv (value : Option String) (dflt : String) : String :=
  value.getD dflt

/-- Python `a or b` for an `Optional[str]` left operand: `a` unless it is
`None` or the empty string (both falsy), in which case `b`. -/
def pyOrStr (a : Option String) (b : String) : String :=
  match a with
  | some s => if s = "" then b else s
  | none => b

/-- Decimal value of a digit list, most significant first. -/
def digitsToNat (cs : List Char) (acc : Nat) : Nat :=
  match cs with
  | [] => acc
  | c :: rest => digitsToNat rest (acc * 10 + (c.toNat - 48))

/-- Python `int(s)` on a string: the parsed integer for an optional-sign
decimal digit string, or `none` when `int` raises `ValueError`. (Python also
strips whitespace and accepts `+` and digit-group underscores; those forms do
not occur here and are not modelled.) -/
def pyInt (s : String) : Option Int :=
  match s.data with
  | [] => none
  | '-' :: cs =>
    if !cs.isEmpty && cs.all Char.isDigit then some (-(digitsToNat cs 0 : Int))
    else none
  | cs =>
    if cs.all Char.isDigit then some (digitsToNat cs 0 : Int)
    else none

/-- Python `port or int(os.getenv("SGLANG_PORT", "30000"))`: the explicit
port unless it is `None` or `0` (both falsy), else the parsed environment
string (`int(...)` is only evaluated in that branch). -/
def pyOrIntParse (a : Option Int) (envStr : String) : Option Int :=
  match a with
  | some n => if n = 0 then pyInt envStr else some n
  | none => pyInt envStr

/-- The hardcoded default model identifier of `SGLangMistralClient.__init__`. -/
def defaultModel : String :=
  "OPEA/Mistral-Small-3.1-24B-Instruct-2503-int4-AutoRound-awq-sym"

/-- The configuration stored by `SGLangMistralClient.__init__`:
`host`, `port`, `model` and the derived `base_url`. -/
structure ClientConfig where
  host : String
  port : Int
  model : String
  base_url : String
  deriving DecidableEq, Repr

/-- Embedding of `SGLangMistralClient.__init__(host, port, model)` run under
environment `env`. The result is `none` exactly when `int(...)` raises
`ValueError` on the port environment string. Note the source reads no
environment variable for `model`. -/
def clientInit (host : Option String) (port : Option Int) (model : Option String)
    (env : Env) : Option ClientConfig :=
  let hostV := pyOrStr host (getenv env.sglang_host "localhost")
  match pyOrIntParse port (getenv env.sglang_port "30000") with
  | none => none
  | some portV =>
    let modelV := pyOrStr model defaultModel
    some { host := hostV, port := portV, model := modelV,
           base_url := "http://" ++ hostV ++ ":" ++ toString portV }

/-- A JSON value in the request body dict: the typed fields the client sets,
plus opaque extra keyword-parameter values passed through unchanged. -/
inductive BVal where
  | s (v : String)
  | i (v : Int)
  | msgs (v : List Message)
  | extraVal (tag : String)
  deriving DecidableEq, Repr

/-- Effect of a `**kwargs` entry in a Python dict literal: an existing key
keeps its position and is overwritten, a new key is appended. -/
def dictSet (d : List (String × BVal)) (k : String) (v : BVal) :
    List (String × BVal) :=
  if d.any (fun p => p.1 == k) then
    d.map (fun p => if p.1 == k then (p.1, v) else p)
  else d ++ [(k, v)]

/-- The dict literal `\x7b"model": model, "messages": messages,
"max_tokens": max_tokens, **kwargs\x7d` built by both request methods. -/
def build_data (model : String) (messages : List Message) (max_tokens : Int)
    (kwargs : List (String × BVal)) : List (String × BVal) :=
  kwargs.foldl (fun d kv => dictSet d kv.1 kv.2)
    [("model", BVal.s model), ("messages", BVal.msgs messages),
     ("max_tokens", BVal.i max_tokens)]

/-- An HTTP response as seen through the `requests` library: status code and
body text. -/
structure HttpResponse where
  status : Nat
  body : String
  deriving DecidableEq, Repr

/-- A `requests.exceptions.RequestException`: a transport failure (connection
error, timeout, ...) or the `HTTPError` that `raise_for_status` raises on a
4xx/5xx status. -/
inductive TransportError where
  | connectionError
  | timeout
  | httpError (status : Nat)
  | otherError (msg : String)
  deriving DecidableEq, Repr

/-- Embedding of `response.raise_for_status()` from the `requests` library: raises
`HTTPError` exactly when the status code is 4xx or 5xx (400-599); any other
status, including 3xx, passes through. -/
def raise_for_status (r : HttpResponse) : Except TransportError HttpResponse :=
  if 400 ≤ r.status ∧ r.status < 600 then
    Except.error (TransportError.httpError r.status)
  else Except.ok r

/-- The transport layer for POST: `requests.post` as an oracle from URL and
JSON body to an outcome. -/
abbrev PostOracle := String → List (String × BVal) → Except TransportError HttpResponse

/-- The transport layer for GET: `requests.get` as an oracle from URL to an
outcome (the `timeout=5` keyword only shapes which outcome occurs). -/
abbrev GetOracle := String → Except TransportError HttpResponse

/-- Embedding of `SGLangMistralClient.make_request` over a POST oracle and a
JSON parser `parse` (modelling `response.json()`, which may itself raise):
builds the body dict, POSTs it to `\x7bbase_url\x7d/v1/chat/completions`,
re-raises any `RequestException` unchanged (after the stderr log, which has
no effect on the result), and returns the parsed body otherwise. The Python
default `max_tokens=300` is supplied by callers here. -/
def make_request {α : Type} (cfg : ClientConfig) (post : PostOracle)
    (parse : String → Except TransportError α) (messages : List Message)
    (max_tokens : Int) (kwargs : List (String × BVal)) :
    Except TransportError α :=
  let url := cfg.base_url ++ "/v1/chat/completions"
  let data := build_data cfg.model messages max_tokens kwargs
  match post url data with
  | Except.error e => Except.error e
  | Except.ok response =>
    match raise_for_status response with
    | Except.error e => Except.error e
    | Except.ok r => parse r.body

/-- Embedding of `SGLangMistralClient.make_request_raw`: same URL, body and
error behaviour as `make_request`, returning the raw `response.text`. -/
def make_request_raw (cfg : ClientConfig) (post : PostOracle)
    (messages : List Message) (max_tokens : Int)
    (kwargs : List (String × BVal)) : Except TransportError String :=
  let url := cfg.base_url ++ "/v1/chat/completions"
  let data := build_data cfg.model messages max_tokens kwargs
  match post url data with
  | Except.error e => Except.error e
  | Except.ok response =>
    match raise_for_status response with
    | Except.error e => Except.error e
    | Except.ok r => Except.ok r.body

/-- Embedding of `SGLangMistralClient.health_check` over a GET oracle: GETs
`\x7bbase_url\x7d/health`, returns `status == 200`, and any
`RequestException` yields `false`. -/
def health_check (cfg : ClientConfig) (get : GetOracle) : Bool :=
  match get (cfg.base_url ++ "/health") with
  | Except.ok response => response.status == 200
  | Except.error _ => false

/-- A concrete client configuration used in counterexamples and witnesses. -/
def cfg0 : ClientConfig :=
  { host := "localhost", port := 30000, model := "m",
    base_url := "http://localhost:30000" }

/-- The hardcoded fallback image URL of `cli.determine_text_and_images`. -/
def fallbackImageUrl : String :=
  "https://github.com/alex-crouch/resources/blob/main/zsh-diskfree/images/servingsuggestion.gif?raw=true"

/-- Embedding of `cli.determine_text_and_images(text_arg, image_urls_arg)`:
an explicit text argument (tested with `is not None`, so even the empty
string) wins outright with the given URLs; else truthy URLs get the
count-derived default text; else the default text for one image is paired
with the single hardcoded fallback URL. -/
def determine_text_and_images (text_arg : Option String)
    (image_urls_arg : Option (List String)) : String × Option (List String) :=
  match text_arg with
  | some t => (t, image_urls_arg)
  | none =>
    if listTruthy image_urls_arg then
      (determine_default_text ((image_urls_arg.getD []).length : Int), image_urls_arg)
    else
      (determine_default_text 1, some [fallbackImageUrl])

/-- A heap for the mutable Python lists `create_message` touches: string
lists (the `image_urls` argument object) live in `strLists`, content-block
lists (the local `content`) in `blockLists`; `nextAddr` is the next fresh
address for allocation. -/
structure PyHeap where
  nextAddr : Nat
  strLists : Nat → List String
  blockLists : Nat → List ContentBlock

/-- Python `content.append(b)`: append one element to the block list at address `a`,
leaving every other cell unchanged. -/
def heapAppendBlock (h : PyHeap) (a : Nat) (b : ContentBlock) : PyHeap :=
  { h with
    blockLists := fun x => if x = a then h.blockLists a ++ [b] else h.blockLists x }

/-- Statement-by-statement heap embedding of `create_message(text, image_urls)`
with the argument passed by reference (an address into `strLists`, or `None`):
`content = []` allocates a fresh block list; the truthiness-guarded loop
appends one image block per URL read from the argument's cell; the text block
is appended; the return snapshots the final `content` (or uses the
bare-string shape when the argument was falsy). -/
def create_message_heap (text : String) (image_urls : Option Nat) (h : PyHeap) :
    PyHeap × List Message :=
  let contentAddr := h.nextAddr
  let h1 : PyHeap :=
    { nextAddr := h.nextAddr + 1
      strLists := h.strLists
      blockLists := fun x => if x = contentAddr then [] else h.blockLists x }
  let truthy : Bool :=
    match image_urls with
    | none => false
    | some a => !(h1.strLists a).isEmpty
  let h2 : PyHeap :=
    if truthy then
      match image_urls with
      | none => h1
      | some a =>
        (h1.strLists a).foldl
          (fun hh url => heapAppendBlock hh contentAddr (ContentBlock.imageUrl url)) h1
    else h1
  let h3 : PyHeap := heapAppendBlock h2 contentAddr (ContentBlock.textBlock text)
  if !truthy then
    (h3, [{ role := "user", content := Content.str text }])
  else
    (h3, [{ role := "user", content := Content.blocks (h3.blockLists contentAddr) }])

end SGLangMistral

namespace SGLangMistral

/-- C1 counterexample: the resolution order "explicit constructor argument if
given, else environment variable, else default" fails on the code at two
concrete inputs: (1) an explicitly given empty host is ignored in favour of
the environment variable; (2) with `SGLANG_MODEL` set and no model argument,
the stored model is the hardcoded default, not the environment value. -/
theorem C1_counterexample :
    (clientInit (some "") none none
        { sglang_host := some "envhost", sglang_port := none, sglang_model := none }).map
      ClientConfig.host = some "envhost" ∧
    some "envhost" ≠ (some "" : Option String) ∧
    (clientInit none none none
        { sglang_host := none, sglang_port := none, sglang_model := some "envmodel" }).map
      ClientConfig.model = some defaultModel ∧
    defaultModel ≠ "envmodel" := by
  refine ⟨rfl, by decide, rfl, by decide⟩

/-- C1 amended: resolution per field, with truthiness in place of "given":
host and port use the explicit argument when it is truthy (non-empty string,
non-zero int), else the environment variable when set (the port string passed
through `int(...)`), else the defaults `"localhost"` / `30000`; model uses the
explicit argument when truthy, else the hardcoded default — no environment
variable is consulted for model. -/
theorem C1_field_resolution (host : Option String) (port : Option Int)
    (model : Option String) (env : Env) (cfg : ClientConfig)
    (hc : clientInit host port model env = some cfg) :
    (∀ h, host = some h → h ≠ "" → cfg.host = h) ∧
    ((host = none ∨ host = some "") → ∀ e, env.sglang_host = some e → cfg.host = e) ∧
    ((host = none ∨ host = some "") → env.sglang_host = none → cfg.host = "localhost") ∧
    (∀ p, port = some p → p ≠ 0 → cfg.port = p) ∧
    ((port = none ∨ port = some 0) → ∀ e, env.sglang_port = some e →
      some cfg.port = pyInt e) ∧
    ((port = none ∨ port = some 0) → env.sglang_port = none → cfg.port = 30000) ∧
    (∀ m, model = some m → m ≠ "" → cfg.model = m) ∧
    ((model = none ∨ model = some "") → cfg.model = defaultModel) := by
  unfold clientInit at hc
  cases hm : pyOrIntParse port (getenv env.sglang_port "30000") with
  | none =>
    rw [hm] at hc
    exact absurd hc (by simp)
  | some pv =>
    rw [hm] at hc
    simp only [Option.some_inj] at hc
    subst hc
    refine ⟨?_, ?_, ?_, ?_, ?_, ?_, ?_, ?_⟩
    · intro h hh hne
      subst hh
      simp [pyOrStr, hne]
    · rintro (hh | hh) e he <;> subst hh <;> simp [pyOrStr, getenv, he]
    · rintro (hh | hh) he <;> subst hh <;> simp [pyOrStr, getenv, he]
    · intro p hp hne
      subst hp
      simp [pyOrIntParse, hne] at hm
      simpa using hm.symm
    · rintro (hp | hp) e he <;> subst hp <;>
        simp only [pyOrIntParse, if_pos rfl] at hm <;>
        rw [getenv, he] at hm <;> simpa using hm.symm
    · rintro (hp | hp) he <;> subst hp <;>
        simp only [pyOrIntParse, if_pos rfl] at hm <;>
        rw [getenv, he] at hm <;>
        have h30 : pyInt "30000" = some 30000 := rfl <;>
        simp [h30] at hm <;> simp [hm]
    · intro m hm' hne
      subst hm'
      simp [pyOrStr, hne]
    · rintro (hm' | hm') <;> subst hm' <;> simp [pyOrStr]

/-- C1 amended witness: with host `"h"`, port `7`, no model argument, and both
environment variables set, the stored host and port are the explicit arguments
and the stored model is the hardcoded default. -/
theorem C1_field_resolution_witness :
    ({ host := "h", port := 7, model := defaultModel,
       base_url := "http://h:7" } : ClientConfig).host = "h" ∧
    ({ host := "h", port := 7, model := defaultModel,
       base_url := "http://h:7" } : ClientConfig).model = defaultModel := by
  have h := C1_field_resolution (some "h") (some 7) none
      { sglang_host := some "e", sglang_port := some "22", sglang_model := none }
      { host := "h", port := 7, model := defaultModel, base_url := "http://h:7" }
      rfl
  exact ⟨h.1 "h" rfl (by decide), h.2.2.2.2.2.2.2 (Or.inl rfl)⟩

/-- C9: an explicitly supplied but falsy constructor argument (empty host or
model string, port 0) is treated as absent: construction gives the same result
as passing `None`, so the explicit-argument-wins order does not hold for such
values — concretely, an empty explicit host loses to the environment variable
and an explicit port 0 loses to the environment port. -/
theorem C9_falsy_args_fall_through (env : Env) :
    clientInit (some "") none none env = clientInit none none none env ∧
    clientInit none (some 0) none env = clientInit none none none env ∧
    clientInit none none (some "") env = clientInit none none none env ∧
    (clientInit (some "") none none
        { sglang_host := some "env-host", sglang_port := none, sglang_model := none }).map
      ClientConfig.host = some "env-host" ∧
    (clientInit none (some 0) none
        { sglang_host := none, sglang_port := some "8080", sglang_model := none }).map
      ClientConfig.port = some 8080 := by
  refine ⟨rfl, rfl, rfl, rfl, rfl⟩

/-- C2: for every string `text`, `create_message text none` and
`create_message text (some [])` both equal the one-element list
`[\x7brole := "user", content := text\x7d]` with the content the bare string,
including when `text` is empty. -/
theorem C2_create_message_no_images (text : String) :
    create_message text none = [{ role := "user", content := Content.str text }] ∧
    create_message text (some []) = [{ role := "user", content := Content.str text }] ∧
    create_message text none = create_message text (some []) := by
  refine ⟨rfl, rfl, rfl⟩

/-- C3: for every `text` and non-empty `urls`, `create_message text (some urls)`
is exactly one `"user"` message whose content is the block list of length
`urls.length + 1`: index `i < urls.length` holds the image block for `urls[i]`
(URLs passed through unchanged, in input order), and the final index holds the
single text block carrying `text` verbatim. -/
theorem C3_create_message_with_images (text : String) (urls : List String)
    (h : urls ≠ []) :
    create_message text (some urls) =
      [{ role := "user",
         content := Content.blocks
           (urls.map ContentBlock.imageUrl ++ [ContentBlock.textBlock text]) }] ∧
    (urls.map ContentBlock.imageUrl ++ [ContentBlock.textBlock text]).length
      = urls.length + 1 ∧
    (∀ (i : Nat) (u : String), urls[i]? = some u →
      (urls.map ContentBlock.imageUrl ++ [ContentBlock.textBlock text])[i]?
        = some (ContentBlock.imageUrl u)) ∧
    (urls.map ContentBlock.imageUrl ++ [ContentBlock.textBlock text])[urls.length]?
      = some (ContentBlock.textBlock text) := by
  have htr : listTruthy (some urls) = true := by
    simp [listTruthy, List.isEmpty_iff, h]
  refine ⟨?_, ?_, ?_, ?_⟩
  · simp [create_message, htr]
  · simp
  · intro i u hi
    have hlt : i < urls.length := (List.getElem?_eq_some_iff.mp hi).1
    rw [List.getElem?_append_left (by simpa using hlt)]
    simp [hi]
  · rw [List.getElem?_append_right (by simp)]
    simp

/-- C3 witness at `text = "t"`, `urls = ["a", "b"]`. -/
theorem C3_create_message_with_images_witness :
    create_message "t" (some ["a", "b"]) =
      [{ role := "user",
         content := Content.blocks
           [ContentBlock.imageUrl "a", ContentBlock.imageUrl "b",
            ContentBlock.textBlock "t"] }] ∧
    ([ContentBlock.imageUrl "a", ContentBlock.imageUrl "b",
      ContentBlock.textBlock "t"] : List ContentBlock)[2]?
      = some (ContentBlock.textBlock "t") := by
  have h := C3_create_message_with_images "t" ["a", "b"] (by decide)
  exact ⟨h.1, h.2.2.2⟩

/-- C4: `determine_default_text` maps 0 and 1 to `"What's in this image?"`,
every `N ≥ 2` to `"I have N images. Please describe each image."`, and every
negative count through the same template rather than a special case. -/
theorem C4_determine_default_text :
    determine_default_text 0 = "What's in this image?" ∧
    determine_default_text 1 = "What's in this image?" ∧
    (∀ N : Int, 2 ≤ N →
      determine_default_text N =
        "I have " ++ toString N ++ " images. Please describe each image.") ∧
    (∀ N : Int, N < 0 →
      determine_default_text N =
        "I have " ++ toString N ++ " images. Please describe each image.") := by
  refine ⟨rfl, rfl, ?_, ?_⟩
  · intro N hN
    have h0 : N ≠ 0 := by omega
    have h1 : N ≠ 1 := by omega
    simp [determine_default_text, h0, h1]
  · intro N hN
    have h0 : N ≠ 0 := by omega
    have h1 : N ≠ 1 := by omega
    simp [determine_default_text, h0, h1]

/-- C5: `health_check` is true iff the GET to `\x7bbase_url\x7d/health`
returns HTTP status 200; every transport exception and every non-200 status
yields `false` (the embedding is a total boolean function: the `except`
clause converts every raise to `false`). -/
theorem C5_health_check (cfg : ClientConfig) (get : GetOracle) :
    (health_check cfg get = true ↔
      (∃ r : HttpResponse,
        get (cfg.base_url ++ "/health") = Except.ok r ∧ r.status = 200)) ∧
    (∀ e, get (cfg.base_url ++ "/health") = Except.error e →
      health_check cfg get = false) ∧
    (∀ r : HttpResponse, get (cfg.base_url ++ "/health") = Except.ok r →
      r.status ≠ 200 → health_check cfg get = false) := by
  refine ⟨⟨?_, ?_⟩, ?_, ?_⟩
  · intro h
    unfold health_check at h
    cases hg : get (cfg.base_url ++ "/health") with
    | error e =>
      rw [hg] at h
      exact absurd h (by simp)
    | ok r =>
      rw [hg] at h
      exact ⟨r, rfl, by simpa using h⟩
  · rintro ⟨r, hr, hs⟩
    unfold health_check
    rw [hr]
    simp [hs]
  · intro e he
    unfold health_check
    rw [he]
  · intro r hr hs
    unfold health_check
    rw [hr]
    simpa using hs

/-- C5 witness: a 200 response gives `true`; a timeout gives `false`. -/
theorem C5_health_check_witness :
    health_check cfg0 (fun _ => Except.ok { status := 200, body := "ok" }) = true ∧
    health_check cfg0 (fun _ => Except.error TransportError.timeout) = false := by
  constructor
  · exact (C5_health_check cfg0 _).1.mpr ⟨{ status := 200, body := "ok" }, rfl, rfl⟩
  · exact (C5_health_check cfg0 _).2.1 TransportError.timeout rfl

/-- C6 counterexample: a 304 response is non-2xx, yet `make_request` does not
surface any error — `raise_for_status` raises only for 4xx/5xx, so the
parsed body is returned. -/
theorem C6_counterexample :
    make_request cfg0 (fun _ _ => Except.ok { status := 304, body := "b304" })
      (fun b => Except.ok b) [] 300 [] = Except.ok "b304" ∧
    ¬ (200 ≤ 304 ∧ 304 < 300) :=
  ⟨rfl, by decide⟩

/-- C6 amended: `make_request` POSTs the dict
`\x7bmodel, messages, max_tokens, **extra params\x7d` to
`\x7bbase_url\x7d/v1/chat/completions`; a transport failure is surfaced to
the caller unchanged (same error, never swallowed; the stderr log does not
affect the result); a 4xx or 5xx status raises the `HTTPError` for that
status; any other status — including non-2xx statuses outside 400-599, such
as 304 — returns the parsed JSON body. -/
theorem C6_make_request {α : Type} (cfg : ClientConfig) (post : PostOracle)
    (parse : String → Except TransportError α) (messages : List Message)
    (max_tokens : Int) (kwargs : List (String × BVal)) :
    (∀ e, post (cfg.base_url ++ "/v1/chat/completions")
        (build_data cfg.model messages max_tokens kwargs) = Except.error e →
      make_request cfg post parse messages max_tokens kwargs = Except.error e) ∧
    (∀ r : HttpResponse, post (cfg.base_url ++ "/v1/chat/completions")
        (build_data cfg.model messages max_tokens kwargs) = Except.ok r →
      400 ≤ r.status → r.status < 600 →
      make_request cfg post parse messages max_tokens kwargs
        = Except.error (TransportError.httpError r.status)) ∧
    (∀ r : HttpResponse, post (cfg.base_url ++ "/v1/chat/completions")
        (build_data cfg.model messages max_tokens kwargs) = Except.ok r →
      ¬ (400 ≤ r.status ∧ r.status < 600) →
      make_request cfg post parse messages max_tokens kwargs = parse r.body) := by
  refine ⟨?_, ?_, ?_⟩
  · intro e he
    simp only [make_request]
    rw [he]
  · intro r hr h4 h6
    simp only [make_request]
    rw [hr]
    simp [raise_for_status, h4, h6]
  · intro r hr hn
    simp only [make_request]
    rw [hr]
    simp [raise_for_status, hn]

/-- C6 amended witness: a connection error propagates unchanged, and a 500
status becomes the `HTTPError` for 500. -/
theorem C6_make_request_witness :
    make_request cfg0 (fun _ _ => Except.error TransportError.connectionError)
      (fun b => Except.ok b) [] 300 []
      = Except.error TransportError.connectionError ∧
    make_request cfg0 (fun _ _ => Except.ok { status := 500, body := "oops" })
      (fun b => Except.ok b) [] 300 []
      = Except.error (TransportError.httpError 500) := by
  constructor
  · exact (C6_make_request cfg0 _ _ [] 300 []).1 TransportError.connectionError rfl
  · exact (C6_make_request cfg0 _ _ [] 300 []).2.1
      { status := 500, body := "oops" } rfl (by decide) (by decide)

/-- C7: for identical inputs, `make_request_raw` consults the POST oracle at
exactly the same URL with exactly the same body dict as `make_request`, with
identical error behaviour — the same transport error is re-raised by both,
and a 4xx/5xx status raises the same `HTTPError` in both — and on a
non-raising status the raw variant returns the body text where
`make_request` returns `parse` of that same body; equivalently,
`make_request_raw` is exactly `make_request` with the identity parser. -/
theorem C7_raw_equivalence {α : Type} (cfg : ClientConfig) (post : PostOracle)
    (parse : String → Except TransportError α) (messages : List Message)
    (max_tokens : Int) (kwargs : List (String × BVal)) :
    make_request_raw cfg post messages max_tokens kwargs
      = make_request cfg post (fun b => Except.ok b) messages max_tokens kwargs ∧
    (∀ e, post (cfg.base_url ++ "/v1/chat/completions")
        (build_data cfg.model messages max_tokens kwargs) = Except.error e →
      make_request_raw cfg post messages max_tokens kwargs = Except.error e ∧
      make_request cfg post parse messages max_tokens kwargs = Except.error e) ∧
    (∀ r : HttpResponse, post (cfg.base_url ++ "/v1/chat/completions")
        (build_data cfg.model messages max_tokens kwargs) = Except.ok r →
      400 ≤ r.status → r.status < 600 →
      make_request_raw cfg post messages max_tokens kwargs
        = Except.error (TransportError.httpError r.status) ∧
      make_request cfg post parse messages max_tokens kwargs
        = Except.error (TransportError.httpError r.status)) ∧
    (∀ r : HttpResponse, post (cfg.base_url ++ "/v1/chat/completions")
        (build_data cfg.model messages max_tokens kwargs) = Except.ok r →
      ¬ (400 ≤ r.status ∧ r.status < 600) →
      make_request_raw cfg post messages max_tokens kwargs = Except.ok r.body ∧
      make_request cfg post parse messages max_tokens kwargs = parse r.body) := by
  refine ⟨?_, ?_, ?_, ?_⟩
  · simp only [make_request_raw, make_request]
  · intro e he
    constructor <;> simp only [make_request_raw, make_request] <;> rw [he]
  · intro r hr h4 h6
    constructor <;> simp only [make_request_raw, make_request] <;> rw [hr] <;>
      simp [raise_for_status, h4, h6]
  · intro r hr hn
    constructor <;> simp only [make_request_raw, make_request] <;> rw [hr] <;>
      simp [raise_for_status, hn]

/-- C7 witness: with a 304 response, the raw variant returns the body text
and the parsed variant applies the parser to that same body. -/
theorem C7_raw_equivalence_witness :
    make_request_raw cfg0 (fun _ _ => Except.ok { status := 304, body := "raw" })
      [] 300 [] = Except.ok "raw" ∧
    make_request cfg0 (fun _ _ => Except.ok { status := 304, body := "raw" })
      (fun b => Except.ok (b ++ "!")) [] 300 [] = Except.ok "raw!" := by
  have h := (C7_raw_equivalence cfg0
      (fun _ _ => Except.ok { status := 304, body := "raw" })
      (fun b => Except.ok (b ++ "!")) [] 300 []).2.2.2
      { status := 304, body := "raw" } rfl (by decide)
  exact ⟨h.1, h.2⟩

/-- C4 witness at `N = 5` and `N = -1`. -/
theorem C4_determine_default_text_witness :
    determine_default_text 5 = "I have 5 images. Please describe each image." ∧
    determine_default_text (-1) = "I have -1 images. Please describe each image." := by
  refine ⟨?_, ?_⟩
  · have h := C4_determine_default_text.2.2.1 5 (by decide)
    simpa using h
  · have h := C4_determine_default_text.2.2.2 (-1) (by decide)
    simpa using h

/-- C8: the CLI fallback policy — explicit text wins outright with the given
URLs (possibly none); else non-empty URLs get `determine_default_text` of
their count; else the result is `determine_default_text 1` with exactly the
one hardcoded fallback URL. -/
theorem C8_text_image_fallback (t? : Option String) (urls? : Option (List String)) :
    (∀ t, t? = some t → determine_text_and_images t? urls? = (t, urls?)) ∧
    (t? = none → ∀ urls, urls? = some urls → urls ≠ [] →
      determine_text_and_images t? urls?
        = (determine_default_text (urls.length : Int), urls?)) ∧
    (t? = none → (urls? = none ∨ urls? = some []) →
      determine_text_and_images t? urls?
        = (determine_default_text 1, some [fallbackImageUrl])) := by
  refine ⟨?_, ?_, ?_⟩
  · intro t ht
    subst ht
    rfl
  · intro ht urls hu hne
    subst ht
    subst hu
    have htr : listTruthy (some urls) = true := by
      simp [listTruthy, List.isEmpty_iff, hne]
    simp [determine_text_and_images, htr]
  · intro ht hu
    subst ht
    rcases hu with hu | hu <;> subst hu <;> rfl

/-- C8 witness: explicit text with one URL; no text with two URLs; neither
text nor URLs. -/
theorem C8_text_image_fallback_witness :
    determine_text_and_images (some "hi") (some ["u"]) = ("hi", some ["u"]) ∧
    determine_text_and_images none (some ["a", "b"])
      = (determine_default_text 2, some ["a", "b"]) ∧
    determine_text_and_images none none
      = (determine_default_text 1, some [fallbackImageUrl]) := by
  refine ⟨?_, ?_, ?_⟩
  · exact (C8_text_image_fallback (some "hi") (some ["u"])).1 "hi" rfl
  · have h := (C8_text_image_fallback none (some ["a", "b"])).2.1 rfl
      ["a", "b"] rfl (by decide)
    simpa using h
  · exact (C8_text_image_fallback none none).2.2 rfl (Or.inl rfl)

/-- The image-block loop only writes the `content` cell: the string-list half
of the heap is untouched by the fold. -/
theorem strLists_foldl_appendBlock (l : List String) (c : Nat) (hh : PyHeap) :
    (l.foldl (fun x url => heapAppendBlock x c (ContentBlock.imageUrl url)) hh).strLists
      = hh.strLists := by
  induction l generalizing hh with
  | nil => rfl
  | cons u us ih => exact ih (heapAppendBlock hh c (ContentBlock.imageUrl u))

/-- The image-block loop appends exactly the image blocks of the URLs, in
order, to the `content` cell. -/
theorem blockLists_foldl_appendBlock (l : List String) (c : Nat) (hh : PyHeap) :
    (l.foldl (fun x url => heapAppendBlock x c (ContentBlock.imageUrl url)) hh).blockLists c
      = hh.blockLists c ++ l.map ContentBlock.imageUrl := by
  induction l generalizing hh with
  | nil => simp
  | cons u us ih =>
    rw [List.foldl_cons, ih]
    simp [heapAppendBlock]

/-- Appending a block leaves the string-list half of the heap untouched. -/
theorem heapAppendBlock_strLists (h : PyHeap) (a : Nat) (b : ContentBlock) :
    (heapAppendBlock h a b).strLists = h.strLists :=
  rfl

/-- Appending a block appends to the addressed cell. -/
theorem heapAppendBlock_blockLists_self (h : PyHeap) (a : Nat) (b : ContentBlock) :
    (heapAppendBlock h a b).blockLists a = h.blockLists a ++ [b] := by
  simp [heapAppendBlock]

/-- The heap embedding returns the same message list as the pure embedding
applied to the value stored at the argument's address. -/
theorem create_message_heap_agrees (text : String) (a : Nat) (h : PyHeap) :
    (create_message_heap text (some a) h).2
      = create_message text (some (h.strLists a)) := by
  cases hb : (h.strLists a).isEmpty with
  | true =>
    have he : h.strLists a = [] := List.isEmpty_iff.mp hb
    simp [create_message_heap, create_message, listTruthy, hb, he]
  | false =>
    simp [create_message_heap, create_message, listTruthy, hb,
      heapAppendBlock_blockLists_self, blockLists_foldl_appendBlock]

/-- C10: `create_message` never mutates its `image_urls` argument: in the
heap embedding, the string list stored at the argument's address after the
call is exactly the one stored before it (same elements, same order), for
every text, address and initial heap. -/
theorem C10_no_mutation (text : String) (a : Nat) (h : PyHeap) :
    ((create_message_heap text (some a) h).1).strLists a = h.strLists a := by
  cases hb : (h.strLists a).isEmpty with
  | true =>
    simp [create_message_heap, hb, heapAppendBlock_strLists]
  | false =>
    simp [create_message_heap, hb, heapAppendBlock_strLists,
      strLists_foldl_appendBlock]

end SGLangMistral
